import Mathlib

/-!
Verification development for `velodyne_pointcloud/src/conversions/convert.cc`
(the `Convert` node: scan segmentation with a carry-over overflow buffer,
demand-gated view composition, and the parameter reconfiguration callback).

Modelling conventions.
* A point record (`PointXYZIRADT`) carries an azimuth in hundredths of a
  degree.  The decoder produces azimuths in `0..35999` (data model §3), so the
  `(int)` / `uint16_t` casts in the source are the identity and the azimuth is
  modelled as `Nat`.  Fields the converter never reads (x, y, z, distance,
  intensity, return type) are carried as an opaque integer payload.
* `double` configuration values (`min_range`, ...) are only stored and passed
  along by this translation unit, never computed with, so they are modelled as
  opaque `Int` values.  `scan_phase` enters the segmentation loop only through
  `(uint16_t)round(config_.scan_phase*100)`; that rounded value is modelled
  directly as a `Nat` (`scan_phase100`), which the declared parameter range
  `0.0 .. 359.0` keeps below 36000.
* A point's `time_stamp` (seconds, `double`) is modelled as an opaque `Int`;
  the nanosecond conversion applied when stamping the header is a unit change
  that does not affect which point's timestamp is chosen, so it is abstracted
  to the identity on the modelled value.
* Reads of `std::vector::back()` / `front()` on an empty vector are undefined
  behaviour in the source; the model makes every such access explicit by
  returning `none`.
-/

namespace VelodyneVLS

/-- One decoded point record (`velodyne_pointcloud::PointXYZIRADT`).
`azimuth` is in hundredths of a degree (`0..35999` per the data model);
`payload` stands for the fields `convert.cc` never reads. -/
structure PointRecord where
  azimuth : Nat
  time_stamp : Int
  ring : Nat
  payload : Int
deriving DecidableEq, Repr

/-- `uint16_t phase_diff = (36000 + current_azimuth - phase) % 36000;`
(convert.cc:245/251).  With `azimuth < 36000` and `phase < 36000` (both
guaranteed by the data model and the declared `scan_phase` range) the C++
`int` arithmetic is non-negative and this `Nat` formula is exact. -/
def phase_diff (azimuth phase : Nat) : Nat :=
  (36000 + azimuth - phase) % 36000

/-- The overflow-splitting loop of convert.cc:244-252, acting on the working
buffer in *reversed* order (head of the list = `points.back()`), accumulating
the overflow buffer in push order.

Source:
```
uint16_t current_azimuth = (int)points.back().azimuth;
uint16_t phase_diff = (36000 + current_azimuth - phase) % 36000;
while (phase_diff < 18000 && points.size() > 0) {
  _overflow_buffer.push_back(points.back());
  points.pop_back();
  current_azimuth = (int)points.back().azimuth;   // ← read after the pop
  phase_diff = (36000 + current_azimuth - phase) % 36000;
}
```
The `points.back()` read happens *inside* the body right after the pop, so if
the pop emptied the vector the source reads out of bounds; the model returns
`none` there. -/
def segLoopRev (phase : Nat) :
    List PointRecord → List PointRecord →
    Option (List PointRecord × List PointRecord)
  | [], acc => some ([], acc)
  | [p], acc =>
    if phase_diff p.azimuth phase < 18000 then
      -- the pop empties the vector, and the body then reads `back()`
      none
    else some ([p], acc)
  | p :: q :: rest2, acc =>
    if phase_diff p.azimuth phase < 18000 then
      segLoopRev phase (q :: rest2) (acc ++ [p])
    else some (p :: q :: rest2, acc)

/-- The scan segmentation step of convert.cc:241-254 on the working buffer
(previous overflow, reversed, prepended to the freshly decoded points).
Returns `(closed scan, new overflow buffer in push order)`, or `none` when the
loop reads `points.back()` on an emptied vector. -/
def segment (phase : Nat) (pts : List PointRecord) :
    Option (List PointRecord × List PointRecord) :=
  if 0 < pts.length then
    match segLoopRev phase pts.reverse [] with
    | none => none
    | some (rem, ovf) => some (rem.reverse, ovf)
  else
    some (pts, [])

/-- The backward-scan loop exactly as the spec (§4.1) words it: while the
buffer is non-empty and `diff(lastPoint.azimuth) < 18000`, move the last point
into the carry-over; stop at the first point with `diff ≥ 18000` *or when the
buffer is exhausted*.  Same reversed-list representation as `segLoopRev`. -/
def specSegLoop (phase : Nat) :
    List PointRecord → List PointRecord →
    List PointRecord × List PointRecord
  | [], acc => ([], acc)
  | p :: rest, acc =>
    if phase_diff p.azimuth phase < 18000 then
      specSegLoop phase rest (acc ++ [p])
    else (p :: rest, acc)

/-- The spec's segmentation contract (§4.1): total, stops cleanly at buffer
exhaustion. -/
def specSegment (phase : Nat) (pts : List PointRecord) :
    List PointRecord × List PointRecord :=
  match specSegLoop phase pts.reverse [] with
  | (rem, ovf) => (rem.reverse, ovf)

/-- Helper to build concrete points. -/
def pt (az : Nat) (ts : Int) : PointRecord :=
  { azimuth := az, time_stamp := ts, ring := 0, payload := 0 }

/-- Spec §8.6 scenario batch: azimuths `[100, 200, 35900, 35950]`. -/
def batch4 : List PointRecord :=
  [pt 100 1, pt 200 2, pt 35900 3, pt 35950 4]

/-- A batch in which every point lies in the half-turn after phase 18000, so
every `phase_diff` is `< 18000` and the loop defers all of them.  (The spec's
§8.7 walk-through uses azimuths `[17000, 17500, 17900]` and mis-evaluates
their diffs as `< 18000`; those actually have `diff ≥ 18000`, so a batch that
really satisfies the all-deferred hypothesis must sit after the phase, e.g.
`[18100, 18500, 18900]`.) -/
def batch3 : List PointRecord :=
  [pt 18100 1, pt 18500 2, pt 18900 3]

example : segment 0 batch4 = some (batch4, []) := by decide
example : segment 18000 batch3 = none := by decide
example : specSegment 18000 batch3 = ([], batch3.reverse) := by decide

/-- A point cloud as this translation unit sees it: point sequence plus the
header stamp and the width/height bookkeeping of `pcl::PointCloud`. -/
structure Cloud where
  points : List PointRecord
  stamp : Int
  height : Nat
  width : Nat
deriving DecidableEq, Repr

/-- A freshly default-constructed `pcl::PointCloud` (convert.cc:269, 290,
308): no points, zero stamp, zero width/height. -/
def emptyCloud : Cloud :=
  { points := [], stamp := 0, height := 0, width := 0 }

/-- The scan-level metadata block of convert.cc:256-266:
```
double first_point_timestamp = points.front().time_stamp;   // ← unguarded
header.stamp = toPCL(Time(toChronoNanoSeconds(first_point_timestamp)));
height = 1;
width = points.size();
```
`points.front()` on an empty vector is an out-of-bounds read, modelled as
`none`. -/
def stampScanMetadata (pts : List PointRecord) : Option Cloud :=
  match pts with
  | [] => none
  | p :: _ =>
    some { points := pts, stamp := p.time_stamp, height := 1,
           width := pts.length }

/-- The combined-cloud construction of convert.cc:311-322: concatenate the
valid-extended points and the filtered invalid-near points, take the header
from the valid cloud, set `height = 1` and `width = points.size()`. -/
def mkCombined (v n : Cloud) : Cloud :=
  { points := v.points ++ n.points
    stamp := v.stamp
    height := 1
    width := (v.points ++ n.points).length }

/-- Per-output subscriber demand, read via `get_subscription_count() > 0` on
the four point-cloud publishers at the start of each block. -/
structure Demand where
  points : Bool
  points_ex : Bool
  invalid_near : Bool
  combined : Bool
deriving DecidableEq, Repr

/-- The shared configuration record (`config_`, `num_points_threshold_`,
`invalid_intensity_array_`, and the decoder-side range parameters). -/
structure Config where
  min_range : Int
  max_range : Int
  view_direction : Int
  view_width : Int
  scan_phase100 : Nat
  num_points_threshold : Int
  invalid_intensity : List Int
deriving DecidableEq, Repr

/-- `processScan` reads the shared mutable configuration at three distinct
program points rather than once: `config_.scan_phase` at line 241,
`data_->getMinRange()/getMaxRange()` at line 276, and
`invalid_intensity_array_` / `num_points_threshold_` at line 298.  Since the
reconfiguration callback may run between any two of these reads, the cycle is
modelled as a function of the configuration value observed at each read
point. -/
structure ConfigReads where
  atSegment : Config
  atValid : Config
  atNear : Config
deriving DecidableEq, Repr

/-- The externally observable computation steps a cycle performs, with the
arguments handed to the external collaborators. -/
inductive Call where
  | decodePackets
  | segmentOverflow
  | validExtract (minR maxR : Int)
  | ringSort (numLasers : Nat)
  | invalidNearExtract (intensity : List Int) (numLasers : Nat)
      (threshold : Int)
  | combinedMerge
deriving DecidableEq, Repr

/-- Result of one `processScan` cycle. -/
structure CycleOut where
  scanCloud : Cloud
  validCloud : Cloud
  nearCloud : Cloud
  combinedCloud : Option Cloud
  newOverflow : List PointRecord
  trace : List Call
deriving DecidableEq, Repr

/-- One `Convert::processScan` cycle (convert.cc:211-332), as a function of
the subscriber demand, the configuration observed at each read point, the
overflow buffer carried from the previous cycle, and the points the external
decoder would produce for this packet batch.  The external extractors
(`extractValidPoints`, `sortZeroIndex`, `extractInvalidNearPointsFiltered`,
from func.h) are taken as function parameters; every invocation of one of
them is recorded in the trace together with its configuration arguments.
`none` models the undefined behaviour of the unguarded `back()` / `front()`
reads (claims about those paths evaluate the model there). -/
def processScanModel (numLasers : Nat)
    (fValid : Cloud → Int → Int → Cloud)
    (fSort : Cloud → Nat → Cloud)
    (fNear : Cloud → List Int → Nat → Int → Cloud)
    (d : Demand) (reads : ConfigReads)
    (ovf decoded : List PointRecord) : Option CycleOut :=
  let anyD := d.points || d.points_ex || d.invalid_near || d.combined
  let step1 : Option (Cloud × List PointRecord) :=
    if anyD then
      -- convert.cc:219-266: drain the overflow buffer in reverse, decode,
      -- split off the new overflow, stamp scan-level metadata.
      match segment reads.atSegment.scan_phase100 (ovf.reverse ++ decoded) with
      | none => none
      | some (closed, newOvf) =>
        match stampScanMetadata closed with
        | none => none
        | some cloud => some (cloud, newOvf)
    else
      -- No subscriber on any cloud output: the whole block is skipped and
      -- the overflow buffer is left untouched.
      some (emptyCloud, ovf)
  match step1 with
  | none => none
  | some (scanCloud, newOvf) =>
    let validD := d.points || d.points_ex || d.combined
    let validCloud :=
      if validD then
        fValid scanCloud reads.atValid.min_range reads.atValid.max_range
      else emptyCloud
    let nearD := d.invalid_near || d.combined
    let nearCloud :=
      if nearD then
        fNear (fSort scanCloud numLasers) reads.atNear.invalid_intensity
          numLasers reads.atNear.num_points_threshold
      else emptyCloud
    let combCloud :=
      if d.combined then some (mkCombined validCloud nearCloud) else none
    let tr :=
      (if anyD then [Call.decodePackets, Call.segmentOverflow] else [])
        ++ (if validD then
              [Call.validExtract reads.atValid.min_range
                reads.atValid.max_range]
            else [])
        ++ (if nearD then
              [Call.ringSort numLasers,
               Call.invalidNearExtract reads.atNear.invalid_intensity
                 numLasers reads.atNear.num_points_threshold]
            else [])
        ++ (if d.combined then [Call.combinedMerge] else [])
    some { scanCloud := scanCloud, validCloud := validCloud,
           nearCloud := nearCloud, combinedCloud := combCloud,
           newOverflow := newOvf, trace := tr }

/-- Iterated segmentation over a sequence of decoded batches, threading the
overflow buffer exactly as consecutive `processScan` cycles do
(convert.cc:222-254): each cycle works on the previous overflow reversed and
prepended to the new batch. -/
def runSegmenter (phase : Nat) :
    List PointRecord → List (List PointRecord) →
    Option (List (List PointRecord) × List PointRecord)
  | ovf, [] => some ([], ovf)
  | ovf, b :: bs =>
    match segment phase (ovf.reverse ++ b) with
    | none => none
    | some (closed, o) =>
      match runSegmenter phase o bs with
      | none => none
      | some (scans, fin) => some (closed :: scans, fin)

/-- A parameter update as delivered to the callback: each field is present or
absent (`get_param` searches the vector by name and assigns only on a hit). -/
structure ParamUpdate where
  min_range : Option Int
  max_range : Option Int
  view_direction : Option Int
  view_width : Option Int
  num_points_threshold : Option Int
  scan_phase : Option Int
  invalid_intensity : Option (List Int)
deriving DecidableEq, Repr

/-- The node state touched by `Convert::paramCallback`: the `config_` fields,
`num_points_threshold_`, `invalid_intensity_array_`, and the range/view
parameters last pushed to the decoder via `data_->setParameters`. -/
structure NodeState where
  min_range : Int
  max_range : Int
  view_direction : Int
  view_width : Int
  num_points_threshold : Int
  scan_phase : Int
  invalid_intensity_array : List Int
  decoderParams : Int × Int × Int × Int
deriving DecidableEq, Repr

/-- convert.cc:190-193:
```
invalid_intensity_array_ = std::vector<float>(data_->getNumLasers(), 0);
for (size_t i = 0; i < invalid_intensity_double.size(); ++i)
  invalid_intensity_array_.at(i) = (float)invalid_intensity_double[i];
```
i.e. a zero array of length `numLasers` whose first entries are overwritten
by `vals`; `.at(i)` throws `std::out_of_range` when `vals` is longer than the
laser count, modelled as `none`. -/
def fillIntensity (numLasers : Nat) (vals : List Int) : Option (List Int) :=
  if vals.length ≤ numLasers then
    some (vals ++ List.replicate (numLasers - vals.length) 0)
  else none

/-- `Convert::paramCallback` (convert.cc:166-208).  The C++ condition
`get_param(min_range) || get_param(max_range) || get_param(view_direction) ||
get_param(view_width)` short-circuits: each `get_param` both assigns the
member on a hit and reports the hit, and a later call in the chain runs only
when every earlier one missed.  `num_points_threshold` and `scan_phase` are
then fetched unconditionally, and `invalid_intensity_array_` is rebuilt on
every call from the update's array (empty when the parameter is absent).
Returns the new state, or `none` when the rebuild throws. -/
def paramCallback (numLasers : Nat) (p : ParamUpdate) (s0 : NodeState) :
    Option NodeState :=
  let s1 := match p.min_range with
    | some v => { s0 with min_range := v }
    | none => s0
  let b1 := p.min_range.isSome
  let s2 := if b1 then s1 else
    match p.max_range with
    | some v => { s1 with max_range := v }
    | none => s1
  let b2 := b1 || p.max_range.isSome
  let s3 := if b2 then s2 else
    match p.view_direction with
    | some v => { s2 with view_direction := v }
    | none => s2
  let b3 := b2 || p.view_direction.isSome
  let s4 := if b3 then s3 else
    match p.view_width with
    | some v => { s3 with view_width := v }
    | none => s3
  let b4 := b3 || p.view_width.isSome
  -- convert.cc:175-176: data_->setParameters(...) when the chain reported a
  -- hit.
  let s5 := if b4 then
      { s4 with decoderParams :=
          (s4.min_range, s4.max_range, s4.view_direction, s4.view_width) }
    else s4
  let s6 := match p.num_points_threshold with
    | some v => { s5 with num_points_threshold := v }
    | none => s5
  let s7 := match p.scan_phase with
    | some v => { s6 with scan_phase := v }
    | none => s6
  let vals := match p.invalid_intensity with
    | some l => l
    | none => []
  match fillIntensity numLasers vals with
  | none => none
  | some arr => some { s7 with invalid_intensity_array := arr }

/-- An update carrying nothing. -/
def emptyUpdate : ParamUpdate :=
  { min_range := none, max_range := none, view_direction := none,
    view_width := none, num_points_threshold := none, scan_phase := none,
    invalid_intensity := none }

/-! ### Structural lemmas about the segmentation loop -/

/-- When the loop finishes without the out-of-bounds read, it has moved some
prefix `d` of the reversed working buffer onto the end of the overflow
accumulator and left the rest in place. -/
theorem segLoopRev_decomp (phase : Nat) :
    ∀ (l acc rem ovf : List PointRecord),
      segLoopRev phase l acc = some (rem, ovf) →
      ∃ d, l = d ++ rem ∧ ovf = acc ++ d := by
  intro l
  induction l with
  | nil =>
    intro acc rem ovf h
    simp only [segLoopRev, Option.some.injEq, Prod.mk.injEq] at h
    exact ⟨[], by simp [← h.1, ← h.2]⟩
  | cons p rest ih =>
    intro acc rem ovf h
    by_cases hd : phase_diff p.azimuth phase < 18000
    · cases rest with
      | nil => rw [segLoopRev, if_pos hd] at h; simp at h
      | cons q rest2 =>
        rw [segLoopRev, if_pos hd] at h
        obtain ⟨d, hd1, hd2⟩ := ih (acc ++ [p]) rem ovf h
        refine ⟨p :: d, by simp [hd1], ?_⟩
        simp [hd2]
    · cases rest with
      | nil =>
        rw [segLoopRev, if_neg hd] at h
        simp only [Option.some.injEq, Prod.mk.injEq] at h
        exact ⟨[], by simp [← h.1, ← h.2]⟩
      | cons q rest2 =>
        rw [segLoopRev, if_neg hd] at h
        simp only [Option.some.injEq, Prod.mk.injEq] at h
        exact ⟨[], by simp [← h.1, ← h.2]⟩

/-- A successful segmentation splits the working buffer exactly: the closed
scan is the untouched front of the buffer, and the overflow holds the moved
tail in reverse chronological (push) order. -/
theorem segment_decomp (phase : Nat) (pts c o : List PointRecord)
    (h : segment phase pts = some (c, o)) : pts = c ++ o.reverse := by
  unfold segment at h
  by_cases hl : 0 < pts.length
  · rw [if_pos hl] at h
    rcases hsl : segLoopRev phase pts.reverse [] with _ | ⟨rem, ovf⟩
    · rw [hsl] at h; simp at h
    · rw [hsl] at h
      simp only [Option.some.injEq, Prod.mk.injEq] at h
      obtain ⟨d, hd1, hd2⟩ := segLoopRev_decomp phase pts.reverse [] rem ovf hsl
      have hp : pts = rem.reverse ++ d.reverse := by
        have := congrArg List.reverse hd1
        simpa [List.reverse_append] using this
      rw [hp, ← h.1, ← h.2]
      simp [hd2]
  · rw [if_neg hl] at h
    simp only [Option.some.injEq, Prod.mk.injEq] at h
    simp [← h.1, ← h.2]

/-- Wherever the source loop completes without the out-of-bounds read, it
computes exactly what the spec's loop computes. -/
theorem segLoopRev_agrees_spec (phase : Nat) :
    ∀ (l acc rem ovf : List PointRecord),
      segLoopRev phase l acc = some (rem, ovf) →
      specSegLoop phase l acc = (rem, ovf) := by
  intro l
  induction l with
  | nil =>
    intro acc rem ovf h
    simp only [segLoopRev, Option.some.injEq] at h
    simpa [specSegLoop] using h
  | cons p rest ih =>
    intro acc rem ovf h
    by_cases hd : phase_diff p.azimuth phase < 18000
    · rw [specSegLoop, if_pos hd]
      cases rest with
      | nil => rw [segLoopRev, if_pos hd] at h; simp at h
      | cons q rest2 =>
        rw [segLoopRev, if_pos hd] at h
        exact ih (acc ++ [p]) rem ovf h
    · rw [specSegLoop, if_neg hd]
      cases rest with
      | nil => rw [segLoopRev, if_neg hd] at h; simpa using h
      | cons q rest2 => rw [segLoopRev, if_neg hd] at h; simpa using h

/-- A successful segmentation permutes its input into closed scan plus
overflow. -/
theorem segment_perm (phase : Nat) (pts c o : List PointRecord)
    (h : segment phase pts = some (c, o)) : pts.Perm (c ++ o) := by
  rw [segment_decomp phase pts c o h]
  exact (o.reverse_perm).append_left c

/-- Conservation across an iterated run: every point of the initial overflow
buffer and of every decoded batch ends up in exactly one closed scan or in
the final overflow buffer. -/
theorem runSegmenter_conservation (phase : Nat) :
    ∀ (bs : List (List PointRecord)) (ovf : List PointRecord)
      (scans : List (List PointRecord)) (fin : List PointRecord),
      runSegmenter phase ovf bs = some (scans, fin) →
      (ovf ++ bs.flatten).Perm (scans.flatten ++ fin) := by
  intro bs
  induction bs with
  | nil =>
    intro ovf scans fin h
    simp only [runSegmenter, Option.some.injEq, Prod.mk.injEq] at h
    simp [← h.1, ← h.2]
  | cons b bs ih =>
    intro ovf scans fin h
    rw [runSegmenter] at h
    rcases hseg : segment phase (ovf.reverse ++ b) with _ | ⟨c, o⟩ <;>
      simp only [hseg] at h
    · exact Option.noConfusion h
    · rcases hrun : runSegmenter phase o bs with _ | ⟨scans2, fin2⟩ <;>
        simp only [hrun] at h
      · exact Option.noConfusion h
      · simp only [Option.some.injEq, Prod.mk.injEq] at h
        obtain ⟨hs, hf⟩ := h
        subst hs; subst hf
        have e2 : ovf.reverse ++ b = c ++ o.reverse :=
          segment_decomp phase _ c o hseg
        have e1 : (ovf ++ b).Perm (ovf.reverse ++ b) :=
          ((ovf.reverse_perm).symm).append_right b
        have h1 : (ovf ++ b).Perm (c ++ o) :=
          (e2 ▸ e1).trans ((o.reverse_perm).append_left c)
        have ihp := ih o scans2 fin2 hrun
        have s1 : ((ovf ++ b) ++ bs.flatten).Perm ((c ++ o) ++ bs.flatten) :=
          h1.append_right _
        have s2 : ((c ++ o) ++ bs.flatten).Perm
            (c ++ (scans2.flatten ++ fin2)) := by
          rw [List.append_assoc]; exact ihp.append_left c
        simpa [List.append_assoc] using s1.trans s2

/-- Every successful cycle's trace is the concatenation of the four
demand-gated blocks. -/
theorem processScanModel_trace (numLasers : Nat)
    (fValid : Cloud → Int → Int → Cloud) (fSort : Cloud → Nat → Cloud)
    (fNear : Cloud → List Int → Nat → Int → Cloud)
    (d : Demand) (reads : ConfigReads) (ovf decoded : List PointRecord)
    (out : CycleOut)
    (h : processScanModel numLasers fValid fSort fNear d reads ovf decoded
          = some out) :
    out.trace =
      (if d.points || d.points_ex || d.invalid_near || d.combined then
        [Call.decodePackets, Call.segmentOverflow] else [])
        ++ (if d.points || d.points_ex || d.combined then
              [Call.validExtract reads.atValid.min_range
                reads.atValid.max_range]
            else [])
        ++ (if d.invalid_near || d.combined then
              [Call.ringSort numLasers,
               Call.invalidNearExtract reads.atNear.invalid_intensity
                 numLasers reads.atNear.num_points_threshold]
            else [])
        ++ (if d.combined then [Call.combinedMerge] else []) := by
  simp only [processScanModel] at h
  split at h
  · exact absurd h (by simp)
  · injection h with h'
    subst h'
    rfl

/-- Like the trace lemma: a successful cycle produces the combined cloud by
`mkCombined` of the valid and near clouds exactly when the combined output
has a subscriber. -/
theorem processScanModel_combined (numLasers : Nat)
    (fValid : Cloud → Int → Int → Cloud) (fSort : Cloud → Nat → Cloud)
    (fNear : Cloud → List Int → Nat → Int → Cloud)
    (d : Demand) (reads : ConfigReads) (ovf decoded : List PointRecord)
    (out : CycleOut)
    (h : processScanModel numLasers fValid fSort fNear d reads ovf decoded
          = some out) :
    out.combinedCloud =
      if d.combined then some (mkCombined out.validCloud out.nearCloud)
      else none := by
  simp only [processScanModel] at h
  split at h
  · exact absurd h (by simp)
  · injection h with h'
    subst h'
    rfl

/-! ### Concrete fixtures -/

def cfg0 : Config :=
  { min_range := 1, max_range := 130, view_direction := 0, view_width := 6,
    scan_phase100 := 0, num_points_threshold := 300, invalid_intensity := [] }

def cfgBumped : Config := { cfg0 with min_range := 2 }

/-- No reconfiguration during the cycle: every read sees the same record. -/
def readsSame : ConfigReads := ⟨cfg0, cfg0, cfg0⟩

/-- A reconfiguration lands after the `scan_phase` read (convert.cc:241) and
before the `getMinRange()` read (convert.cc:276). -/
def readsMidUpdate : ConfigReads := ⟨cfg0, cfgBumped, cfgBumped⟩

def fValidId : Cloud → Int → Int → Cloud := fun c _ _ => c
def fSortId : Cloud → Nat → Cloud := fun c _ => c
def fNearId : Cloud → List Int → Nat → Int → Cloud := fun c _ _ _ => c

def dNone : Demand := ⟨false, false, false, false⟩
def dExOnly : Demand := ⟨false, true, false, false⟩
def dCombOnly : Demand := ⟨false, false, false, true⟩

/-- A single point safely past the half-turn window for phase 0. -/
def ptHi : PointRecord := pt 20000 5

def scanCloudHi : Cloud :=
  { points := [ptHi], stamp := 5, height := 1, width := 1 }

def outComb : CycleOut :=
  { scanCloud := scanCloudHi, validCloud := scanCloudHi,
    nearCloud := scanCloudHi,
    combinedCloud := some (mkCombined scanCloudHi scanCloudHi),
    newOverflow := [],
    trace := [Call.decodePackets, Call.segmentOverflow,
              Call.validExtract 1 130, Call.ringSort 1,
              Call.invalidNearExtract [] 1 300, Call.combinedMerge] }

/-- Prior node state for the reconfiguration claims: two lasers, a non-zero
per-ring intensity array. -/
def nodeState0 : NodeState :=
  { min_range := 1, max_range := 130, view_direction := 0, view_width := 6,
    num_points_threshold := 300, scan_phase := 0,
    invalid_intensity_array := [7, 8], decoderParams := (1, 130, 0, 6) }

/-- An update carrying new `min_range` and `max_range` and nothing else. -/
def updateMinMax : ParamUpdate :=
  { emptyUpdate with min_range := some 5, max_range := some 9 }

/-! ### Claims -/

/-- C1: the claim says that on a working buffer whose points all have
`phase_diff < 18000` the backward-scanning loop stops at buffer exhaustion,
leaving an empty closed scan and the whole buffer carried over, without any
out-of-bounds access.  The code instead reads `points.back()` on the emptied
vector inside the loop body (convert.cc:250) right after the final pop, so
the model returns `none` (out-of-bounds) where the spec's algorithm returns
the empty scan with everything deferred: the claim fails on the code. -/
theorem claim_C1_all_deferred_reads_out_of_bounds :
    segment 18000 batch3 = none ∧
    specSegment 18000 batch3 = ([], batch3.reverse) := by
  constructor
  · decide
  · decide

/-- C2: the claim says a cycle with an empty closed scan treats it as
nothing to publish instead of faulting when taking the scan-level metadata.
The code reads `points.front().time_stamp` unguarded (convert.cc:259): with
a subscriber present and an empty decode (empty carry-over, empty batch) the
cycle performs the out-of-bounds read, modelled as `none` — the claim fails
on the code. -/
theorem claim_C2_empty_scan_metadata_faults :
    processScanModel 1 fValidId fSortId fNearId dExOnly readsSame [] []
        = none ∧
    stampScanMetadata [] = none := by
  constructor
  · decide
  · decide

/-- C3: the claim says a reconfiguration applies exactly the fields present
in the update and leaves absent fields (including `invalid_intensity`)
untouched.  The code's short-circuiting `||` chain (convert.cc:170-173)
evaluates `get_param("max_range")` only when `min_range` is absent, and
convert.cc:190-193 rebuilds `invalid_intensity_array_` from scratch on every
call.  On an update carrying `min_range := 5` and `max_range := 9`, the
stored `max_range` stays `130` and the intensity array `[7, 8]` is zeroed:
the claim fails on the code. -/
theorem claim_C3_partial_update_clobbers :
    paramCallback 2 updateMinMax nodeState0 =
      some { min_range := 5, max_range := 130, view_direction := 0,
             view_width := 6, num_points_threshold := 300, scan_phase := 0,
             invalid_intensity_array := [0, 0],
             decoderParams := (5, 130, 0, 6) } := by
  decide

/-- C4: the segmenter implements the spec's backward-scan algorithm: on
every run in which the loop completes without the out-of-bounds read of C1,
it returns exactly what the spec's algorithm (threshold 18000 on
`phase_diff`, pop-from-tail into the carry-over) returns. -/
theorem claim_C4_segment_refines_spec (phase : Nat)
    (pts c o : List PointRecord) (h : segment phase pts = some (c, o)) :
    specSegment phase pts = (c, o) := by
  unfold segment at h
  by_cases hl : 0 < pts.length
  · rw [if_pos hl] at h
    rcases hsl : segLoopRev phase pts.reverse [] with _ | ⟨rem, ovf⟩ <;>
      simp only [hsl] at h
    · exact Option.noConfusion h
    · simp only [Option.some.injEq, Prod.mk.injEq] at h
      unfold specSegment
      rw [segLoopRev_agrees_spec phase pts.reverse [] rem ovf hsl]
      simp [h.1, h.2]
  · rw [if_neg hl] at h
    simp only [Option.some.injEq, Prod.mk.injEq] at h
    have hnil : pts = [] := List.length_eq_zero.mp (Nat.eq_zero_of_not_pos hl)
    subst hnil
    simp only [specSegment, specSegLoop, List.reverse_nil]
    simp [← h.1, ← h.2]

/-- Witness for C4: the spec's §8.6 scenario — phase 0, batch azimuths
`[100, 200, 35900, 35950]` — closes the whole batch with an empty
carry-over, and the code computes exactly that. -/
theorem claim_C4_witness :
    segment 0 batch4 = some (batch4, []) ∧
    specSegment 0 batch4 = (batch4, []) :=
  ⟨by decide, claim_C4_segment_refines_spec 0 batch4 batch4 [] (by decide)⟩

/-- C5: conservation — over any sequence of batches, the initial carry-over
plus all decoded points is a permutation of all emitted closed scans plus
the final carry-over buffer (on every run in which no cycle hits the
out-of-bounds read of C1, the only runs whose behaviour is defined). -/
theorem claim_C5_conservation (phase : Nat) (bs : List (List PointRecord))
    (ovf : List PointRecord) (scans : List (List PointRecord))
    (fin : List PointRecord)
    (h : runSegmenter phase ovf bs = some (scans, fin)) :
    (ovf ++ bs.flatten).Perm (scans.flatten ++ fin) :=
  runSegmenter_conservation phase bs ovf scans fin h

/-- Witness for C5: one batch, empty initial carry-over, everything closed. -/
theorem claim_C5_witness :
    (([] : List PointRecord) ++ ([batch4] : List (List PointRecord)).flatten).Perm
      (([batch4] : List (List PointRecord)).flatten ++ []) :=
  claim_C5_conservation 0 [batch4] [] [batch4] [] (by decide)

/-- C6: demand gating — in every defined cycle, a computation runs only if
some subscribed output needs it: no valid-point extraction unless the
`points`, `points_ex` or `combined` output is subscribed; no ring sort and
no near-invalid extraction unless `invalid_near` or `combined` is
subscribed; no combined merge unless `combined` is subscribed; and with zero
subscribers on all views the cycle performs no calls at all. -/
theorem claim_C6_demand_gating (numLasers : Nat)
    (fValid : Cloud → Int → Int → Cloud) (fSort : Cloud → Nat → Cloud)
    (fNear : Cloud → List Int → Nat → Int → Cloud)
    (d : Demand) (reads : ConfigReads) (ovf decoded : List PointRecord)
    (out : CycleOut)
    (h : processScanModel numLasers fValid fSort fNear d reads ovf decoded
          = some out) :
    ((d.points || d.points_ex || d.combined) = false →
      ∀ a b, Call.validExtract a b ∉ out.trace) ∧
    ((d.invalid_near || d.combined) = false →
      (∀ n, Call.ringSort n ∉ out.trace) ∧
      ∀ ia n t, Call.invalidNearExtract ia n t ∉ out.trace) ∧
    (d.combined = false → Call.combinedMerge ∉ out.trace) ∧
    (d = ⟨false, false, false, false⟩ → out.trace = []) := by
  have ht := processScanModel_trace numLasers fValid fSort fNear d reads
    ovf decoded out h
  rcases d with ⟨dp, de, di, dc⟩
  cases dp <;> cases de <;> cases di <;> cases dc <;> simp_all

/-- Witness for C6: with no subscriber anywhere the cycle's trace is empty. -/
theorem claim_C6_witness :
    CycleOut.trace { scanCloud := emptyCloud, validCloud := emptyCloud,
                     nearCloud := emptyCloud, combinedCloud := none,
                     newOverflow := [], trace := [] } = [] :=
  (claim_C6_demand_gating 1 fValidId fSortId fNearId dNone readsSame [] []
    { scanCloud := emptyCloud, validCloud := emptyCloud,
      nearCloud := emptyCloud, combinedCloud := none,
      newOverflow := [], trace := [] } (by decide)).2.2.2 rfl

/-- C7: whenever a defined cycle produces the combined view, it is
`mkCombined` of the valid-extended and invalid-near views: its points are
the concatenation of the valid points followed by the near points, its width
is the sum of the two constituent widths (each view's width being its point
count), its height is 1, and its header stamp is taken from the
valid-extended view. -/
theorem claim_C7_combined_view (numLasers : Nat)
    (fValid : Cloud → Int → Int → Cloud) (fSort : Cloud → Nat → Cloud)
    (fNear : Cloud → List Int → Nat → Int → Cloud)
    (d : Demand) (reads : ConfigReads) (ovf decoded : List PointRecord)
    (out : CycleOut)
    (h : processScanModel numLasers fValid fSort fNear d reads ovf decoded
          = some out)
    (hc : d.combined = true)
    (hv : out.validCloud.width = out.validCloud.points.length)
    (hn : out.nearCloud.width = out.nearCloud.points.length) :
    out.combinedCloud = some (mkCombined out.validCloud out.nearCloud) ∧
    (mkCombined out.validCloud out.nearCloud).points =
      out.validCloud.points ++ out.nearCloud.points ∧
    (mkCombined out.validCloud out.nearCloud).width =
      out.validCloud.width + out.nearCloud.width ∧
    (mkCombined out.validCloud out.nearCloud).height = 1 ∧
    (mkCombined out.validCloud out.nearCloud).stamp = out.validCloud.stamp := by
  refine ⟨?_, rfl, ?_, rfl, rfl⟩
  · rw [processScanModel_combined numLasers fValid fSort fNear d reads
      ovf decoded out h, hc]
    simp
  · simp [mkCombined, hv, hn]

/-- Witness for C7: a one-point cycle with only the combined output
subscribed and identity extractors. -/
theorem claim_C7_witness :
    outComb.combinedCloud =
      some (mkCombined outComb.validCloud outComb.nearCloud) ∧
    (mkCombined outComb.validCloud outComb.nearCloud).points =
      outComb.validCloud.points ++ outComb.nearCloud.points ∧
    (mkCombined outComb.validCloud outComb.nearCloud).width =
      outComb.validCloud.width + outComb.nearCloud.width ∧
    (mkCombined outComb.validCloud outComb.nearCloud).height = 1 ∧
    (mkCombined outComb.validCloud outComb.nearCloud).stamp =
      outComb.validCloud.stamp :=
  claim_C7_combined_view 1 fValidId fSortId fNearId dCombOnly readsSame
    [] [ptHi] outComb (by decide) rfl (by decide) (by decide)

/-- C8: for a non-empty closed scan the stamped scan cloud takes its
timestamp from the *first* point of the scan, has height 1 and width equal
to the point count. -/
theorem claim_C8_first_point_stamp (p : PointRecord)
    (rest : List PointRecord) :
    stampScanMetadata (p :: rest) =
      some { points := p :: rest, stamp := p.time_stamp, height := 1,
             width := (p :: rest).length } := rfl

/-- C9: the claim says every cycle reads the configuration as one atomic
snapshot taken at cycle start, so a reconfiguration landing mid-cycle cannot
change that cycle's outputs.  The code reads the shared configuration at
three separate program points (convert.cc:241, 276, 298) with no snapshot or
lock, so an update of `min_range` from 1 to 2 landing between the
segmentation read and the `getMinRange()` read makes the cycle invoke the
valid-point extraction with the *new* value: its observable behaviour
differs from the run that uses the pre-update configuration throughout — the
claim fails on the code. -/
theorem claim_C9_snapshot_violated :
    processScanModel 1 fValidId fSortId fNearId dExOnly readsMidUpdate
        [] [ptHi] ≠
      processScanModel 1 fValidId fSortId fNearId dExOnly readsSame
        [] [ptHi] := by
  decide

/-- C10: with zero subscribers on all four point-cloud outputs the cycle
performs no decoding and no segmentation, publishes nothing, and leaves the
carry-over buffer exactly unchanged. -/
theorem claim_C10_zero_demand_no_work (numLasers : Nat)
    (fValid : Cloud → Int → Int → Cloud) (fSort : Cloud → Nat → Cloud)
    (fNear : Cloud → List Int → Nat → Int → Cloud)
    (reads : ConfigReads) (ovf decoded : List PointRecord) :
    processScanModel numLasers fValid fSort fNear
        ⟨false, false, false, false⟩ reads ovf decoded =
      some { scanCloud := emptyCloud, validCloud := emptyCloud,
             nearCloud := emptyCloud, combinedCloud := none,
             newOverflow := ovf, trace := [] } := rfl

end VelodyneVLS
